import Mathlib

/-!
# Verification of the BOPTEST testing utilities (`testing/utilities.py`)

A shallow embedding of the reference-comparison oracle of the repository:
`check_trajectory`, `create_test_points`, `compare_ref_timeseries_df`,
`compare_ref_values_df`, and the scenario sweeps of `run_time_period` /
`run_season`, together with theorems settling the specification claims.

Numeric values are embedded as exact rationals (`ℚ`).  Python's float
formatting in messages is rendered with `ℚ`'s `toString`; the properties
proved depend only on which values appear in a message, not on the
decimal syntax of a number.  Fallible Python code (assertions, `KeyError`,
numpy `ValueError`) is embedded in `Except String`.
-/

namespace Boptest

/-- A Python runtime value, as stored in the result dictionary of
`check_trajectory`.  The `tuple1` constructor (a one-element tuple) is needed
because the source assigns `result['ErrorMax'] = err_max,` and
`result['IndexMax'] = i_max,` with trailing commas (utilities.py lines
306-307), which build 1-tuples. -/
inductive PyVal where
  | none
  | float (x : ℚ)
  | int (n : ℤ)
  | str (s : String)
  | tuple1 (x : PyVal)
deriving DecidableEq, Repr

/-- The result dictionary returned by `check_trajectory`:
`{'Pass': bool, 'ErrorMax': ..., 'IndexMax': ..., 'Message': str or None}`. -/
structure CheckResult where
  Pass : Bool
  ErrorMax : PyVal
  IndexMax : PyVal
  Message : Option String
deriving DecidableEq, Repr

/-- The tolerance set at the top of `check_trajectory`: `tol = 1e-3`. -/
def tol : ℚ := 1/1000

/-- Absolute value on `ℚ` (Python `abs`, `np.absolute`), written so that the
kernel can evaluate it. -/
def qabs (x : ℚ) : ℚ := if x < 0 then -x else x

lemma qabs_eq_abs (x : ℚ) : qabs x = |x| := by
  unfold qabs
  rcases lt_or_le x 0 with h | h
  · rw [if_pos h, abs_of_neg h]
  · rw [if_neg (not_lt.mpr h), abs_of_nonneg h]

lemma qabs_nonneg (x : ℚ) : 0 ≤ qabs x := by
  rw [qabs_eq_abs]; exact abs_nonneg x

/-- Python's builtin `max` over a nonempty sequence (the source applies it to
the numpy array `err_fun`); on the empty list we return the junk value 0,
the source never evaluates that case. -/
def listMax : List ℚ → ℚ
  | [] => 0
  | x :: xs => xs.foldl max x

/-- Python/numpy `min` over a nonempty sequence, junk value 0 on `[]`. -/
def listMin : List ℚ → ℚ
  | [] => 0
  | x :: xs => xs.foldl min x

/-- Helper for `np_argmax`: scan the tail keeping the first index of the
strictly largest value seen so far. -/
def np_argmax_go : ℕ → ℚ → ℕ → List ℚ → ℕ
  | _, _, bi, [] => bi
  | i, bv, bi, x :: xs =>
      if x > bv then np_argmax_go (i+1) x i xs else np_argmax_go (i+1) bv bi xs

/-- `np.argmax`: the first index attaining the maximum (0 on the empty
array is junk; the source never evaluates that case). -/
def np_argmax : List ℚ → ℕ
  | [] => 0
  | x :: xs => np_argmax_go 1 x 0 xs

/-- The length-mismatch message of `check_trajectory`
(source: `'Test and reference trajectory not the same length.'`). -/
def lengthMsg : String := "Test and reference trajectory not the same length."

/-- The tolerance-failure message of `check_trajectory`, source format string
`'Max error ({0}) in trajectory greater than tolerance ({1}) at index {2}. y_test: {3}, y_ref:{4}'`. -/
def failMsg (err_max : ℚ) (i_max : ℕ) (yt yr : ℚ) : String :=
  "Max error (" ++ toString err_max ++ ") in trajectory greater than tolerance ("
    ++ toString tol ++ ") at index " ++ toString i_max ++ ". y_test: "
    ++ toString yt ++ ", y_ref:" ++ toString yr

/-- The initial result dictionary of `check_trajectory`. -/
def initResult : CheckResult :=
  { Pass := true, ErrorMax := PyVal.none, IndexMax := PyVal.none, Message := Option.none }

/-- The state threaded through `check_trajectory`'s error loop: the three
numpy arrays (initialized with `np.zeros`) and the result dictionary. -/
structure TrajLoopState where
  err_abs : List ℚ
  err_rel : List ℚ
  err_fun : List ℚ
  result : CheckResult

/-- The failure result dictionary `check_trajectory` builds from the current
`err_fun` array `l` when `max(err_fun) > tol`.  The trailing commas of the
source make `ErrorMax`/`IndexMax` one-element tuples. -/
def failResult (y_test y_ref : List ℚ) (l : List ℚ) : CheckResult :=
  let err_max := listMax l
  let i_max := np_argmax l
  { Pass := false
    ErrorMax := PyVal.tuple1 (PyVal.float err_max)
    IndexMax := PyVal.tuple1 (PyVal.int i_max)
    Message := some (failMsg err_max i_max (y_test.getD i_max 0) (y_ref.getD i_max 0)) }

/-- One iteration of the `for i in range(len(y_ref))` loop of
`check_trajectory`: write `err_abs[i]`, `err_rel[i]`, `err_fun[i]`, then
recompute `err_max = max(err_fun)`, `i_max = np.argmax(err_fun)` over the
partially-filled array and overwrite the result fields if `err_max > tol`. -/
def check_trajectory_step (y_test y_ref : List ℚ) (st : TrajLoopState) (i : ℕ) :
    TrajLoopState :=
  let ea := qabs (y_test.getD i 0 - y_ref.getD i 0)
  let er := if qabs (y_ref.getD i 0) > 10 * tol then ea / qabs (y_ref.getD i 0) else 0
  let err_abs' := st.err_abs.set i ea
  let err_rel' := st.err_rel.set i er
  let err_fun' := st.err_fun.set i (ea + er)
  let err_max := listMax err_fun'
  let result' :=
    if err_max > tol then failResult y_test y_ref err_fun' else st.result
  { err_abs := err_abs', err_rel := err_rel', err_fun := err_fun', result := result' }

/-- `check_trajectory(y_test, y_ref)` (utilities.py lines 252-310): length
check, then the per-index error loop over zero-initialized arrays of length
`len(y_ref)`, returning the final result dictionary. -/
def check_trajectory (y_test y_ref : List ℚ) : CheckResult :=
  if y_test.length ≠ y_ref.length then
    { initResult with Pass := false, Message := some lengthMsg }
  else
    let n := y_ref.length
    let st0 : TrajLoopState :=
      ⟨List.replicate n 0, List.replicate n 0, List.replicate n 0, initResult⟩
    ((List.range n).foldl (check_trajectory_step y_test y_ref) st0).result

/-- The absolute error at index `i`: `err_abs[i] = np.absolute(y_test[i] - y_ref[i])`. -/
def err_abs_at (y_test y_ref : List ℚ) (i : ℕ) : ℚ :=
  qabs (y_test.getD i 0 - y_ref.getD i 0)

/-- The relative error at index `i`: `err_abs[i]/abs(y_ref[i])` when
`abs(y_ref[i]) > 10*tol`, else 0. -/
def err_rel_at (y_test y_ref : List ℚ) (i : ℕ) : ℚ :=
  if qabs (y_ref.getD i 0) > 10 * tol then err_abs_at y_test y_ref i / qabs (y_ref.getD i 0) else 0

/-- The combined error at index `i`: `err_fun[i] = err_abs[i] + err_rel[i]`. -/
def err_fun_at (y_test y_ref : List ℚ) (i : ℕ) : ℚ :=
  err_abs_at y_test y_ref i + err_rel_at y_test y_ref i

/-- The fully-filled combined error array of `check_trajectory`. -/
def err_fun_list (y_test y_ref : List ℚ) : List ℚ :=
  (List.range y_ref.length).map (err_fun_at y_test y_ref)

/-- The combined error array as it stands after `k` iterations of the loop:
entries below `k` are filled, the rest still hold the `np.zeros` value. -/
def partial_err (y_test y_ref : List ℚ) (k : ℕ) : List ℚ :=
  (List.range y_ref.length).map (fun i => if i < k then err_fun_at y_test y_ref i else 0)

lemma err_abs_at_nonneg (y_test y_ref : List ℚ) (i : ℕ) : 0 ≤ err_abs_at y_test y_ref i :=
  qabs_nonneg _

lemma err_fun_at_nonneg (y_test y_ref : List ℚ) (i : ℕ) : 0 ≤ err_fun_at y_test y_ref i := by
  unfold err_fun_at err_rel_at
  have h := err_abs_at_nonneg y_test y_ref i
  split
  · exact add_nonneg h (div_nonneg h (qabs_nonneg _))
  · simpa using h

lemma foldl_max_le {b : ℚ} : ∀ (l : List ℚ) (a : ℚ), a ≤ b → (∀ c ∈ l, c ≤ b) →
    l.foldl max a ≤ b := by
  intro l
  induction l with
  | nil => intro a ha _; simpa using ha
  | cons x xs ih =>
      intro a ha hl
      simp only [List.foldl_cons]
      exact ih _ (max_le ha (hl x (by simp))) (fun c hc => hl c (by simp [hc]))

lemma le_foldl_max : ∀ (l : List ℚ) (a : ℚ), a ≤ l.foldl max a := by
  intro l
  induction l with
  | nil => intro a; simp
  | cons x xs ih =>
      intro a
      simp only [List.foldl_cons]
      exact le_trans (le_max_left a x) (ih (max a x))

lemma mem_le_foldl_max : ∀ (l : List ℚ) (a c : ℚ), c ∈ l → c ≤ l.foldl max a := by
  intro l
  induction l with
  | nil => intro a c hc; simp at hc
  | cons x xs ih =>
      intro a c hc
      simp only [List.foldl_cons]
      rcases List.mem_cons.mp hc with h | h
      · subst h
        exact le_trans (le_max_right a c) (le_foldl_max _ _)
      · exact ih _ _ h

lemma le_listMax_of_mem {l : List ℚ} {a : ℚ} (h : a ∈ l) : a ≤ listMax l := by
  cases l with
  | nil => simp at h
  | cons x xs =>
      rcases List.mem_cons.mp h with h | h
      · subst h; exact le_foldl_max _ _
      · exact mem_le_foldl_max _ _ _ h

lemma listMax_le {l : List ℚ} {b : ℚ} (h : l ≠ []) (hb : ∀ a ∈ l, a ≤ b) :
    listMax l ≤ b := by
  cases l with
  | nil => exact absurd rfl h
  | cons x xs =>
      exact foldl_max_le _ _ (hb x (by simp)) (fun c hc => hb c (by simp [hc]))

lemma listMax_nonneg {l : List ℚ} (h : ∀ a ∈ l, 0 ≤ a) : 0 ≤ listMax l := by
  cases l with
  | nil => simp [listMax]
  | cons x xs => exact le_trans (h x (by simp)) (le_listMax_of_mem (by simp))

lemma partial_err_length (y_test y_ref : List ℚ) (k : ℕ) :
    (partial_err y_test y_ref k).length = y_ref.length := by
  simp [partial_err]

lemma partial_err_getD (y_test y_ref : List ℚ) (k i : ℕ) (hi : i < y_ref.length) :
    (partial_err y_test y_ref k).getD i 0 =
      if i < k then err_fun_at y_test y_ref i else 0 := by
  rw [List.getD_eq_getElem _ _ (by simpa [partial_err] using hi)]
  simp [partial_err]

lemma partial_err_zero (y_test y_ref : List ℚ) :
    partial_err y_test y_ref 0 = List.replicate y_ref.length 0 := by
  simp [partial_err, List.map_eq_replicate_iff]

lemma partial_err_full (y_test y_ref : List ℚ) :
    partial_err y_test y_ref y_ref.length = err_fun_list y_test y_ref := by
  unfold partial_err err_fun_list
  apply List.map_congr_left
  intro i hi
  simp [List.mem_range.mp hi]

lemma partial_err_set (y_test y_ref : List ℚ) (k : ℕ) :
    (partial_err y_test y_ref k).set k (err_fun_at y_test y_ref k) =
      partial_err y_test y_ref (k+1) := by
  apply List.ext_getElem
  · simp [partial_err]
  · intro i h1 h2
    have hi : i < y_ref.length := by simpa [partial_err] using h2
    rw [List.getElem_set]
    by_cases hik : k = i
    · subst hik
      simp [partial_err, Nat.lt_succ_self]
    · simp only [if_neg hik, partial_err, List.getElem_map, List.getElem_range]
      by_cases hlt : i < k
      · simp [hlt, Nat.lt_succ_of_lt hlt]
      · have : ¬ i < k + 1 := by omega
        simp [hlt, this]

lemma partial_err_nonneg (y_test y_ref : List ℚ) (k : ℕ) :
    ∀ a ∈ partial_err y_test y_ref k, 0 ≤ a := by
  intro a ha
  simp only [partial_err, List.mem_map] at ha
  obtain ⟨i, _, rfl⟩ := ha
  split
  · exact err_fun_at_nonneg _ _ _
  · exact le_refl 0

lemma listMax_replicate_zero (n : ℕ) : listMax (List.replicate n (0:ℚ)) = 0 := by
  cases n with
  | zero => simp [listMax]
  | succ m =>
      simp only [List.replicate_succ, listMax]
      induction m with
      | zero => simp
      | succ m' ih => simpa [List.replicate_succ] using ih

lemma listMax_partial_err_mono (y_test y_ref : List ℚ) (k : ℕ) :
    listMax (partial_err y_test y_ref k) ≤ listMax (partial_err y_test y_ref (k+1)) := by
  rcases eq_or_ne y_ref.length 0 with h0 | h0
  · simp [partial_err, h0, listMax]
  · apply listMax_le
    · simp only [partial_err, ne_eq, List.map_eq_nil_iff, List.range_eq_nil]
      exact h0
    · intro a ha
      simp only [partial_err, List.mem_map, List.mem_range] at ha
      obtain ⟨i, hi, rfl⟩ := ha
      by_cases hlt : i < k
      · have hk1 : i < k + 1 := Nat.lt_succ_of_lt hlt
        have hmem : err_fun_at y_test y_ref i ∈ partial_err y_test y_ref (k+1) := by
          have hm := List.mem_map_of_mem
            (fun j => if j < k + 1 then err_fun_at y_test y_ref j else 0)
            (List.mem_range.mpr hi)
          simpa [partial_err, hk1] using hm
        simpa [hlt] using le_listMax_of_mem hmem
      · simp only [hlt, if_false]
        exact listMax_nonneg (partial_err_nonneg y_test y_ref (k+1))

/-- The loop invariant of `check_trajectory`: after `k` iterations, the
`err_fun` array is the partially-filled array and the result dictionary is
the failure record over that array if its max exceeds the tolerance,
otherwise still the initial all-pass dictionary. -/
lemma check_trajectory_loop_inv (y_test y_ref : List ℚ) (k : ℕ)
    (hk : k ≤ y_ref.length) :
    ((List.range k).foldl (check_trajectory_step y_test y_ref)
        ⟨List.replicate y_ref.length 0, List.replicate y_ref.length 0,
         List.replicate y_ref.length 0, initResult⟩).err_fun
      = partial_err y_test y_ref k ∧
    ((List.range k).foldl (check_trajectory_step y_test y_ref)
        ⟨List.replicate y_ref.length 0, List.replicate y_ref.length 0,
         List.replicate y_ref.length 0, initResult⟩).result
      = (if listMax (partial_err y_test y_ref k) > tol
         then failResult y_test y_ref (partial_err y_test y_ref k)
         else initResult) := by
  induction k with
  | zero =>
      refine ⟨by simp [partial_err_zero], ?_⟩
      rw [partial_err_zero, listMax_replicate_zero]
      simp only [List.range_zero, List.foldl_nil]
      rw [if_neg (by norm_num [tol])]
  | succ k ih =>
      have hk' : k ≤ y_ref.length := Nat.le_of_succ_le hk
      have hklt : k < y_ref.length := hk
      obtain ⟨ih1, ih2⟩ := ih hk'
      rw [List.range_succ, List.foldl_append, List.foldl_cons, List.foldl_nil]
      set st := (List.range k).foldl (check_trajectory_step y_test y_ref)
        ⟨List.replicate y_ref.length 0, List.replicate y_ref.length 0,
         List.replicate y_ref.length 0, initResult⟩ with hst
      have herrfun :
          (check_trajectory_step y_test y_ref st k).err_fun =
            partial_err y_test y_ref (k+1) := by
        show st.err_fun.set k _ = _
        rw [ih1]
        exact partial_err_set y_test y_ref k
      refine ⟨herrfun, ?_⟩
      show (if listMax (st.err_fun.set k _) > tol
            then failResult y_test y_ref (st.err_fun.set k _)
            else st.result) = _
      have hset : st.err_fun.set k
          (qabs (y_test.getD k 0 - y_ref.getD k 0) +
            if qabs (y_ref.getD k 0) > 10 * tol
            then qabs (y_test.getD k 0 - y_ref.getD k 0) / qabs (y_ref.getD k 0) else 0) =
          partial_err y_test y_ref (k+1) := by
        rw [ih1]
        have : (qabs (y_test.getD k 0 - y_ref.getD k 0) +
            if qabs (y_ref.getD k 0) > 10 * tol
            then qabs (y_test.getD k 0 - y_ref.getD k 0) / qabs (y_ref.getD k 0) else 0) =
            err_fun_at y_test y_ref k := by
          simp [err_fun_at, err_rel_at, err_abs_at]
        rw [this]
        exact partial_err_set y_test y_ref k
      rw [hset, ih2]
      by_cases hmax : listMax (partial_err y_test y_ref (k+1)) > tol
      · simp [hmax]
      · have hmono := listMax_partial_err_mono y_test y_ref k
        have : ¬ listMax (partial_err y_test y_ref k) > tol := by
          intro h; exact hmax (lt_of_lt_of_le h hmono)
        simp [hmax, this]

/-- Closed form of `check_trajectory` for equal-length inputs: the result is
the failure record over the full combined-error array when its maximum
exceeds the tolerance, and the untouched initial all-pass dictionary
otherwise. -/
theorem check_trajectory_eq_closed (y_test y_ref : List ℚ)
    (h : y_test.length = y_ref.length) :
    check_trajectory y_test y_ref =
      (if listMax (err_fun_list y_test y_ref) > tol
       then failResult y_test y_ref (err_fun_list y_test y_ref)
       else initResult) := by
  unfold check_trajectory
  rw [if_neg (by simp [h])]
  have := (check_trajectory_loop_inv y_test y_ref y_ref.length (le_refl _)).2
  rw [partial_err_full] at this
  exact this

lemma err_fun_at_self (y : List ℚ) (i : ℕ) : err_fun_at y y i = 0 := by
  simp [err_fun_at, err_abs_at, err_rel_at, qabs]

lemma err_fun_list_self (y : List ℚ) : err_fun_list y y = List.replicate y.length 0 := by
  unfold err_fun_list
  apply List.ext_getElem
  · simp
  · intro i h1 h2
    simp [err_fun_at_self]

/-- `check_trajectory` on two identical trajectories never fails: all
combined errors are 0 and the result is the initial all-pass dictionary. -/
lemma check_trajectory_self (y : List ℚ) : check_trajectory y y = initResult := by
  rw [check_trajectory_eq_closed y y rfl, err_fun_list_self, listMax_replicate_zero]
  norm_num [tol]

/-! ## The Resampler: `create_test_points` (utilities.py lines 312-347) -/

/-- A pandas `Series`: a time index paired with data values. -/
structure Series where
  index : List ℚ
  data : List ℚ
deriving DecidableEq, Repr

/-- `np.linspace(a, b, n)`: `n` evenly spaced points from `a` to `b`
inclusive.  numpy computes the step as `(b - a)/(n - 1)`; for `n = 1` the
division never happens and the single point is `a`, which the formula below
also yields since division by zero is zero in `ℚ`. -/
def np_linspace (a b : ℚ) (n : ℕ) : List ℚ :=
  (List.range n).map (fun i : ℕ => a + (i : ℚ) * (b - a) / ((n : ℚ) - 1))

/-- `np.interp(x, xp, fp)` at a single point, over the list of
`(xp, fp)` pairs, which numpy requires to be increasing in `xp`: values left
of the first point clamp to the first `fp`, values right of the last point
clamp to the last `fp`, and interior values are linearly interpolated.
The empty case is junk (numpy raises); callers guard it. -/
def np_interp1 (x : ℚ) : List (ℚ × ℚ) → ℚ
  | [] => 0
  | [(_, y0)] => y0
  | (x0, y0) :: (x1, y1) :: rest =>
      if x ≤ x0 then y0
      else if x ≤ x1 then y0 + (y1 - y0) * (x - x0) / (x1 - x0)
      else np_interp1 x ((x1, y1) :: rest)

/-- `⌊x⌋` on `ℚ` via floor division of the numerator by the denominator. -/
def qfloor (x : ℚ) : ℤ := Int.fdiv x.num x.den

/-- Round-half-up on `ℚ`: `⌊x + 1/2⌋`. -/
def qround (x : ℚ) : ℤ := qfloor (x + 1/2)

/-- `⌊log10 n⌋` for a natural `n ≥ 1` (0 on 0), by repeated division by 10;
the first argument is fuel, always sufficient at `n` itself. -/
def natLog10Fuel : ℕ → ℕ → ℕ
  | 0, _ => 0
  | fuel+1, n => if n < 10 then 0 else natLog10Fuel fuel (n / 10) + 1

/-- `⌊log10 n⌋` for a natural `n ≥ 1`. -/
def natLog10 (n : ℕ) : ℕ := natLog10Fuel n n

/-- `10 ^ s` on `ℚ` for an integer exponent. -/
def qpow10 : ℤ → ℚ
  | Int.ofNat k => (10:ℚ) ^ k
  | Int.negSucc k => ((10:ℚ) ^ (k+1))⁻¹

/-- `⌊log10 x⌋` for a positive rational `x`: for `x ≥ 1` the digit count of
`⌊x⌋`, and for `x < 1` it is `-⌈log10 x⁻¹⌉`. -/
def ratFloorLog10 (x : ℚ) : ℤ :=
  if 1 ≤ x then (natLog10 (x.num.toNat / x.den) : ℤ)
  else
    let y := x⁻¹
    let k := natLog10 (y.num.toNat / y.den)
    if y = (10:ℚ) ^ k then -(k : ℤ) else -((k : ℤ) + 1)

/-- Rounding to at most 8 significant digits, the model of
`float('{:.8g}'.format(x))`: round `x` to an integer multiple of
`10 ^ (⌊log10 |x|⌋ - 7)`.  (Python's `%.8g` rounds ties to even while
`qround` rounds ties up; no claim exercises a tie.) -/
def round8g (x : ℚ) : ℚ :=
  if x = 0 then 0
  else
    let s : ℤ := ratFloorLog10 (qabs x) - 7
    (qround (x / qpow10 s) : ℚ) * qpow10 s

/-- The numpy `ValueError` raised by `index.min()` / `np.interp` on an empty
input array. -/
def emptyArrayMsg : String := "ValueError: zero-size array to reduction operation"

/-- `create_test_points(s, n=500)` (utilities.py lines 312-347): build the
`n`-point `np.linspace` grid between the index minimum and maximum,
interpolate the data onto it with `np.interp`, round each value to 8
significant digits, and return the resulting series.  An empty input index
makes numpy raise, embedded as an `Except.error`. -/
def create_test_points (s : Series) (n : ℕ := 500) : Except String Series :=
  if s.index = [] then .error emptyArrayMsg
  else
    let t_min := listMin s.index
    let t_max := listMax s.index
    let t := np_linspace t_min t_max n
    let data_interp := t.map (fun x => round8g (np_interp1 x (s.index.zip s.data)))
    .ok ⟨t, data_interp⟩

/-! ## The ReferenceStore comparisons -/

instance {ε α : Type} [DecidableEq ε] [DecidableEq α] : DecidableEq (Except ε α) :=
  fun x y =>
    match x, y with
    | .ok a, .ok b =>
        if h : a = b then .isTrue (by rw [h])
        else .isFalse (by intro hc; cases hc; exact h rfl)
    | .error a, .error b =>
        if h : a = b then .isTrue (by rw [h])
        else .isFalse (by intro hc; cases hc; exact h rfl)
    | .ok _, .error _ => .isFalse (by intro hc; cases hc)
    | .error _, .ok _ => .isFalse (by intro hc; cases hc)

/-- A Python `for` loop whose body can raise: run the body on each element
in order, propagating the first exception. -/
def pyForM {α : Type} : List α → (α → Except String Unit) → Except String Unit
  | [], _ => .ok ()
  | a :: as, f =>
      match f a with
      | .error e => .error e
      | .ok _ => pyForM as f

/-- `unittest`'s `assertTrue(b, msg)`: raise the message when `b` is false. -/
def assertTrue (b : Bool) (msg : String) : Except String Unit :=
  if b then .ok () else .error msg

/-- A bare Python `assert` statement. -/
def pyAssert (b : Bool) : Except String Unit :=
  assertTrue b "AssertionError"

/-- `'{0}'.format(x)` on a value that may be `None`. -/
def pyFormatOpt : Option String → String
  | Option.none => "None"
  | some s => s

/-- A pandas timeseries `DataFrame`: a named index of times and a list of
named columns, each column's values aligned with the index. -/
structure DataFrame where
  indexName : String
  index : List ℚ
  cols : List (String × List ℚ)
deriving DecidableEq, Repr

/-- `df.columns.to_list()`. -/
def DataFrame.colNames (df : DataFrame) : List String := df.cols.map Prod.fst

/-- `df[key]` as a series over the dataframe's index (pandas columns are
unique; the first match is taken, `[]` is junk for a missing key). -/
def DataFrame.series (df : DataFrame) (key : String) : Series :=
  ⟨df.index, ((df.cols.find? (fun c => c.1 == key)).map Prod.snd).getD []⟩

/-- The per-key trajectory check in `compare_ref_timeseries_df`: resample
the test and reference columns and assert that `check_trajectory` passes,
with `'{0} Key is {1}.'.format(results['Message'], key)` as the failure
message. -/
def trajKeyCheck (df df_ref : DataFrame) (key : String) : Except String Unit := do
  let y_test ← create_test_points (df.series key)
  let y_ref ← create_test_points (df_ref.series key)
  let results := check_trajectory y_test.data y_ref.data
  assertTrue results.Pass (pyFormatOpt results.Message ++ " Key is " ++ key ++ ".")

/-- The body of `compare_ref_timeseries_df` when the reference exists
(utilities.py lines 170-182): check every reference key is a test key,
every test key is a reference key, then run the trajectory check per test
column.  Each failed assertion raises immediately. -/
def compare_ref_timeseries_df_check (df df_ref : DataFrame) : Except String Unit := do
  pyForM df_ref.colNames (fun key =>
    assertTrue (df.colNames.contains key)
      ("Reference key " ++ key ++ " not in test data."))
  pyForM df.colNames (fun key =>
    assertTrue (df_ref.colNames.contains key)
      ("Test key " ++ key ++ " not in reference data."))
  pyForM df.colNames (trajKeyCheck df df_ref)

/-- A filesystem of reference artifacts: a partial map from paths to stored
timeseries dataframes (`to_csv`/`read_csv` with `index_col='time'` round-trip
the dataframe exactly, so the file is modelled as the dataframe itself). -/
def FS := String → Option DataFrame

/-- Writing `df.to_csv(path)`. -/
def FS.write (fs : FS) (path : String) (df : DataFrame) : FS :=
  fun p => if p = path then some df else fs p

/-- `compare_ref_timeseries_df(df, ref_filepath)` (utilities.py lines
149-187): assert the index is named `time`; if the reference file exists,
run the checks against it, otherwise save the dataframe as the new
reference.  Returns the filesystem after the call. -/
def compare_ref_timeseries_df (fs : FS) (df : DataFrame) (ref_filepath : String) :
    Except String FS := do
  pyAssert (df.indexName == "time")
  match fs ref_filepath with
  | some df_ref => do
      compare_ref_timeseries_df_check df df_ref
      pure fs
  | Option.none => pure (fs.write ref_filepath df)

/-- A pandas scalar-table `DataFrame`: a named index of string keys and
named columns, here a single `value` column giving one rational per key. -/
structure ValuesDF where
  indexName : String
  colNames : List String
  rows : List (String × ℚ)
deriving DecidableEq, Repr

/-- `df.loc[key, 'value']`: look the key up in the table, raising `KeyError`
when absent. -/
def pyLoc (rows : List (String × ℚ)) (key : String) : Except String ℚ :=
  match rows.find? (fun r => r.1 == key) with
  | some r => .ok r.2
  | Option.none => .error ("KeyError: " ++ key)

/-- The body of `compare_ref_values_df` when the reference exists
(utilities.py lines 240-245): for each key of the *test* dataframe's index,
compare the two length-1 trajectories; there is no check in the other
direction. -/
def compare_ref_values_df_check (df df_ref : ValuesDF) : Except String Unit :=
  pyForM (df.rows.map Prod.fst) (fun key => do
    let yt ← pyLoc df.rows key
    let yr ← pyLoc df_ref.rows key
    let results := check_trajectory [yt] [yr]
    assertTrue results.Pass (pyFormatOpt results.Message ++ " Key is " ++ key ++ "."))

/-- A filesystem of scalar-table reference artifacts. -/
def VFS := String → Option ValuesDF

/-- Writing `df.to_csv(path)` for a scalar table. -/
def VFS.write (fs : VFS) (path : String) (df : ValuesDF) : VFS :=
  fun p => if p = path then some df else fs p

/-- `compare_ref_values_df(df, ref_filepath)` (utilities.py lines 218-250):
assert the index is named `keys` and the columns are exactly `['value']`;
if the reference exists run the per-key checks, else save as reference. -/
def compare_ref_values_df (fs : VFS) (df : ValuesDF) (ref_filepath : String) :
    Except String VFS := do
  pyAssert (df.indexName == "keys")
  pyAssert (df.colNames == ["value"])
  match fs ref_filepath with
  | some df_ref => do
      compare_ref_values_df_check df df_ref
      pure fs
  | Option.none => pure (fs.write ref_filepath df)

/-- The outcome of a call, disregarding the filesystem: `none` for success,
the raised message otherwise. -/
def exceptStatus {α : Type} : Except String α → Option String
  | .ok _ => Option.none
  | .error e => some e

/-! ## The ScenarioRunner sweeps: `run_time_period` and `run_season`
(utilities.py lines 704-740 and 747-795)

Only the scenario state of the remote session is modelled: the claims at
stake concern which `electricity_price` value the session is left with.
`advance`, `/results`, `/kpi` requests and the reference comparisons do not
touch the scenario; the model tracks the successful (no failed comparison)
path of each run. -/

/-- The scenario state held by the remote session. -/
structure Scenario where
  electricity_price : String
  time_period : Option String
deriving DecidableEq, Repr

/-- `requests.put('{0}/scenario', data={'electricity_price': p})`. -/
def putPrice (p : String) (s : Scenario) : Scenario :=
  { s with electricity_price := p }

/-- `requests.put('{0}/scenario', data={'time_period': tp})`. -/
def putTimePeriod (tp : String) (s : Scenario) : Scenario :=
  { s with time_period := some tp }

/-- The fixed list of electricity-price variants iterated by both runners:
`for price_scenario in ['constant', 'dynamic', 'highly_dynamic']`. -/
def priceScenarios : List String := ["constant", "dynamic", "highly_dynamic"]

/-- The scenario effect of `run_time_period(time_period)` (utilities.py
lines 704-740): set the time period, run the simulation to exhaustion and
check results (no scenario effect), sweep the three price variants checking
KPIs, then set the price back to `'constant'`. -/
def run_time_period (time_period : String) (s : Scenario) : Scenario :=
  let s1 := putTimePeriod time_period s
  let s2 := priceScenarios.foldl (fun st p => putPrice p st) s1
  putPrice "constant" s2

/-- The scenario effect of `run_season(season)` (utilities.py lines
747-795): resolve the season's start time (raising `ValueError` on an
unknown season), initialize and advance (no scenario effect), set the price
to `'constant'`, check results, then sweep the three price variants checking
KPIs.  There is no restore after the sweep. -/
def run_season (season : String) (s : Scenario) : Except String Scenario :=
  if season = "winter" ∨ season = "summer" ∨ season = "shoulder" then
    let s1 := putPrice "constant" s
    .ok (priceScenarios.foldl (fun st p => putPrice p st) s1)
  else
    .error ("Season " ++ season ++ " unknown.")

/-! ## Helper lemmas for evaluating the comparisons -/

/-- Does the second character list start with the first one?  Used to state
which column names a failure message mentions. -/
def startsWithChars : List Char → List Char → Bool
  | [], _ => true
  | _ :: _, [] => false
  | a :: as, b :: bs => a == b && startsWithChars as bs

/-- Does `l` contain `sub` as a contiguous sublist? -/
def listContainsSub (sub l : List Char) : Bool :=
  match l with
  | [] => startsWithChars sub []
  | _ :: t => startsWithChars sub l || listContainsSub sub t

/-- Does the string `s` mention the string `sub`? -/
def mentions (s sub : String) : Bool := listContainsSub sub.toList s.toList

lemma pyAssert_true {b : Bool} (h : b = true) : pyAssert b = .ok () := by
  rw [h]
  rfl

lemma except_bind_ok {α β : Type} (a : α) (f : α → Except String β) :
    (Except.ok a >>= f) = f a := rfl

lemma except_bind_err {α β : Type} (e : String) (f : α → Except String β) :
    ((Except.error e : Except String α) >>= f) = .error e := rfl

lemma pyForM_ok {α : Type} (l : List α) (f : α → Except String Unit)
    (h : ∀ a ∈ l, f a = .ok ()) : pyForM l f = .ok () := by
  induction l with
  | nil => rfl
  | cons a as ih =>
      simp only [pyForM]
      rw [h a (by simp)]
      exact ih (fun x hx => h x (by simp [hx]))

lemma pyForM_append_error {α : Type} (l1 l2 : List α) (a : α)
    (f : α → Except String Unit) (m : String)
    (h1 : ∀ x ∈ l1, f x = .ok ()) (h2 : f a = .error m) :
    pyForM (l1 ++ a :: l2) f = .error m := by
  induction l1 with
  | nil =>
      simp only [List.nil_append, pyForM]
      rw [h2]
  | cons x xs ih =>
      simp only [List.cons_append, pyForM]
      rw [h1 x (by simp)]
      exact ih (fun y hy => h1 y (by simp [hy]))

lemma pyForM_congr {α : Type} (l : List α) (f g : α → Except String Unit)
    (h : ∀ a ∈ l, f a = g a) : pyForM l f = pyForM l g := by
  induction l with
  | nil => rfl
  | cons a as ih =>
      simp only [pyForM]
      rw [h a (by simp)]
      cases g a with
      | error e => rfl
      | ok u => exact ih (fun x hx => h x (by simp [hx]))

lemma getD_replicate (c : ℚ) (n i : ℕ) (h : i < n) :
    (List.replicate n c).getD i 0 = c := by
  rw [List.getD_eq_getElem _ _ (by simpa using h)]
  simp

lemma foldl_max_const (c : ℚ) : ∀ m : ℕ, (List.replicate m c).foldl max c = c := by
  intro m
  induction m with
  | zero => rfl
  | succ m ih => simpa [List.replicate_succ, max_self] using ih

lemma listMax_replicate (n : ℕ) (c : ℚ) (hn : n ≠ 0) :
    listMax (List.replicate n c) = c := by
  cases n with
  | zero => exact absurd rfl hn
  | succ m =>
      simp only [List.replicate_succ, listMax]
      exact foldl_max_const c m

lemma np_argmax_go_const (c : ℚ) : ∀ (m i bi : ℕ),
    np_argmax_go i c bi (List.replicate m c) = bi := by
  intro m
  induction m with
  | zero => intro i bi; rfl
  | succ m ih =>
      intro i bi
      simp only [List.replicate_succ, np_argmax_go]
      rw [if_neg (lt_irrefl c)]
      exact ih _ _

lemma np_argmax_replicate (n : ℕ) (c : ℚ) : np_argmax (List.replicate n c) = 0 := by
  cases n with
  | zero => rfl
  | succ m =>
      simp only [List.replicate_succ, np_argmax]
      exact np_argmax_go_const c m 1 0

/-- The combined error of a single test/reference value pair. -/
def errOne (a b : ℚ) : ℚ :=
  qabs (a - b) + if qabs b > 10 * tol then qabs (a - b) / qabs b else 0

lemma err_fun_at_getD (y_test y_ref : List ℚ) (i : ℕ) :
    err_fun_at y_test y_ref i = errOne (y_test.getD i 0) (y_ref.getD i 0) := rfl

lemma err_fun_list_replicate (a b : ℚ) (n : ℕ) :
    err_fun_list (List.replicate n a) (List.replicate n b) =
      List.replicate n (errOne a b) := by
  unfold err_fun_list
  apply List.ext_getElem
  · simp
  · intro i h1 h2
    have hi : i < n := by simpa using h2
    simp only [List.getElem_map, List.getElem_range, List.getElem_replicate]
    rw [err_fun_at_getD, getD_replicate _ _ _ hi, getD_replicate _ _ _ hi]

/-- `check_trajectory` on two constant trajectories whose single combined
error exceeds the tolerance: the failure record with index 0. -/
lemma check_trajectory_replicate_fail (a b : ℚ) (n : ℕ) (hn : n ≠ 0)
    (he : tol < errOne a b) :
    check_trajectory (List.replicate n a) (List.replicate n b) =
      { Pass := false, ErrorMax := PyVal.tuple1 (PyVal.float (errOne a b)),
        IndexMax := PyVal.tuple1 (PyVal.int 0),
        Message := some (failMsg (errOne a b) 0 a b) } := by
  rw [check_trajectory_eq_closed _ _ (by simp), err_fun_list_replicate,
    listMax_replicate _ _ (by simpa using hn), if_pos he]
  unfold failResult
  simp only [listMax_replicate _ _ (by simpa using hn), np_argmax_replicate,
    getD_replicate _ _ _ (Nat.pos_of_ne_zero hn), Nat.cast_zero]

lemma np_linspace_self (a : ℚ) (n : ℕ) :
    np_linspace a a n = List.replicate n a := by
  unfold np_linspace
  have h : (fun i : ℕ => a + (i : ℚ) * (a - a) / ((n : ℚ) - 1)) = fun _ : ℕ => a := by
    funext i
    rw [sub_self, mul_zero, zero_div, add_zero]
  rw [h, List.map_const', List.length_range]

lemma create_test_points_ok (s : Series) (n : ℕ) (h : s.index ≠ []) :
    create_test_points s n =
      .ok ⟨np_linspace (listMin s.index) (listMax s.index) n,
           (np_linspace (listMin s.index) (listMax s.index) n).map
             (fun x => round8g (np_interp1 x (s.index.zip s.data)))⟩ := by
  unfold create_test_points
  rw [if_neg h]

/-- `create_test_points` on a single-point series: 500 copies of the single
time paired with 500 copies of the rounded single value. -/
lemma create_test_points_single (t v : ℚ) (n : ℕ) :
    create_test_points ⟨[t], [v]⟩ n =
      .ok ⟨List.replicate n t, List.replicate n (round8g v)⟩ := by
  rw [create_test_points_ok _ _ (by simp)]
  have hmin : listMin [t] = t := rfl
  have hmax : listMax [t] = t := rfl
  rw [hmin, hmax, np_linspace_self, List.map_replicate]
  rfl

lemma trajKeyCheck_eval (df df_ref : DataFrame) (key : String) (s1 s2 : Series)
    (h1 : create_test_points (df.series key) = .ok s1)
    (h2 : create_test_points (df_ref.series key) = .ok s2) :
    trajKeyCheck df df_ref key =
      assertTrue (check_trajectory s1.data s2.data).Pass
        (pyFormatOpt (check_trajectory s1.data s2.data).Message
          ++ " Key is " ++ key ++ ".") := by
  unfold trajKeyCheck
  rw [h1, h2]
  rfl

lemma trajKeyCheck_eval_err (df df_ref : DataFrame) (key : String) (e : String)
    (h1 : create_test_points (df.series key) = .error e) :
    trajKeyCheck df df_ref key = .error e := by
  unfold trajKeyCheck
  rw [h1]
  rfl

/-- On identical dataframes with a nonempty time index, the
reference-exists branch of the timeseries comparison succeeds. -/
lemma compare_ref_timeseries_df_check_self (df : DataFrame) (h : df.index ≠ []) :
    compare_ref_timeseries_df_check df df = .ok () := by
  unfold compare_ref_timeseries_df_check
  have hcont : ∀ key ∈ df.colNames, df.colNames.contains key = true := by
    intro key hk
    exact List.elem_eq_true_of_mem hk
  have h1 : pyForM df.colNames (fun key =>
      assertTrue (df.colNames.contains key)
        ("Reference key " ++ key ++ " not in test data.")) = .ok () := by
    apply pyForM_ok
    intro a ha
    rw [hcont a ha]
    rfl
  have h2 : pyForM df.colNames (fun key =>
      assertTrue (df.colNames.contains key)
        ("Test key " ++ key ++ " not in reference data.")) = .ok () := by
    apply pyForM_ok
    intro a ha
    rw [hcont a ha]
    rfl
  have h3 : pyForM df.colNames (trajKeyCheck df df) = .ok () := by
    apply pyForM_ok
    intro key _
    have hs : (df.series key).index ≠ [] := h
    rw [trajKeyCheck_eval df df key _ _ (create_test_points_ok _ 500 hs)
      (create_test_points_ok _ 500 hs), check_trajectory_self]
    rfl
  rw [h1, except_bind_ok, h2, except_bind_ok, h3]

/-! ## Concrete fixtures and small evaluations -/

/-- A test dataframe with two columns that both fail against `refC2`. -/
def dfC2 : DataFrame := ⟨"time", [0], [("colA", [2]), ("colB", [3])]⟩

/-- A reference dataframe for `dfC2`. -/
def refC2 : DataFrame := ⟨"time", [0], [("colA", [1]), ("colB", [1])]⟩

/-- The failure message raised for column `colA` of `dfC2` against `refC2`. -/
def msgColA : String :=
  "Max error (2) in trajectory greater than tolerance (1/1000) at index 0. y_test: 2, y_ref:1 Key is colA."

/-- The failure message column `colB` of `dfC2` would raise against `refC2`. -/
def msgColB : String :=
  "Max error (4) in trajectory greater than tolerance (1/1000) at index 0. y_test: 3, y_ref:1 Key is colB."

unseal Rat.mul Rat.add Rat.sub Rat.inv in
lemma round8g_one : round8g 1 = 1 := by decide

unseal Rat.mul Rat.add Rat.sub Rat.inv in
lemma round8g_two : round8g 2 = 2 := by decide

unseal Rat.mul Rat.add Rat.sub Rat.inv in
lemma round8g_three : round8g 3 = 3 := by decide

unseal Rat.mul Rat.add Rat.sub Rat.inv in
lemma errOne_two_one : errOne 2 1 = 2 := by decide

unseal Rat.mul Rat.add Rat.sub Rat.inv in
lemma errOne_three_one : errOne 3 1 = 4 := by decide

unseal Rat.mul Rat.add Rat.sub Rat.inv in
lemma errOne_sixfifths_one : errOne (6/5) 1 = 2/5 := by decide

unseal Rat.mul Rat.add Rat.sub Rat.inv in
lemma errOne_boundary : errOne (2001/2000) 1 = tol := by decide

unseal Rat.mul Rat.add Rat.sub Rat.inv in
lemma failMsg_two :
    failMsg 2 0 2 1 =
      "Max error (2) in trajectory greater than tolerance (1/1000) at index 0. y_test: 2, y_ref:1" := by
  decide

unseal Rat.mul Rat.add Rat.sub Rat.inv in
lemma failMsg_four :
    failMsg 4 0 3 1 =
      "Max error (4) in trajectory greater than tolerance (1/1000) at index 0. y_test: 3, y_ref:1" := by
  decide

unseal Rat.mul Rat.add Rat.sub Rat.inv in
lemma failMsg_sixfifths :
    failMsg (2/5) 0 (6/5) 1 =
      "Max error (2/5) in trajectory greater than tolerance (1/1000) at index 0. y_test: 6/5, y_ref:1" := by
  decide

unseal Rat.mul Rat.add Rat.sub Rat.inv in
lemma create_test_points_n1_eval :
    create_test_points ⟨[0, 1], [0, 1]⟩ 1 = .ok ⟨[0], [0]⟩ := by decide

lemma trajKeyCheck_colA : trajKeyCheck dfC2 refC2 "colA" = .error msgColA := by
  have e1 : create_test_points (dfC2.series "colA") =
      .ok ⟨List.replicate 500 0, List.replicate 500 (round8g 2)⟩ :=
    create_test_points_single 0 2 500
  have e2 : create_test_points (refC2.series "colA") =
      .ok ⟨List.replicate 500 0, List.replicate 500 (round8g 1)⟩ :=
    create_test_points_single 0 1 500
  rw [trajKeyCheck_eval dfC2 refC2 "colA" _ _ e1 e2]
  show assertTrue
      (check_trajectory (List.replicate 500 (round8g 2)) (List.replicate 500 (round8g 1))).Pass
      (pyFormatOpt
        (check_trajectory (List.replicate 500 (round8g 2))
          (List.replicate 500 (round8g 1))).Message ++ " Key is " ++ "colA" ++ ".") =
    .error msgColA
  rw [round8g_two, round8g_one,
    check_trajectory_replicate_fail 2 1 500 (by norm_num)
      (by rw [errOne_two_one]; norm_num [tol]),
    errOne_two_one, failMsg_two]
  decide

lemma trajKeyCheck_colB : trajKeyCheck dfC2 refC2 "colB" = .error msgColB := by
  have e1 : create_test_points (dfC2.series "colB") =
      .ok ⟨List.replicate 500 0, List.replicate 500 (round8g 3)⟩ :=
    create_test_points_single 0 3 500
  have e2 : create_test_points (refC2.series "colB") =
      .ok ⟨List.replicate 500 0, List.replicate 500 (round8g 1)⟩ :=
    create_test_points_single 0 1 500
  rw [trajKeyCheck_eval dfC2 refC2 "colB" _ _ e1 e2]
  show assertTrue
      (check_trajectory (List.replicate 500 (round8g 3)) (List.replicate 500 (round8g 1))).Pass
      (pyFormatOpt
        (check_trajectory (List.replicate 500 (round8g 3))
          (List.replicate 500 (round8g 1))).Message ++ " Key is " ++ "colB" ++ ".") =
    .error msgColB
  rw [round8g_three, round8g_one,
    check_trajectory_replicate_fail 3 1 500 (by norm_num)
      (by rw [errOne_three_one]; norm_num [tol]),
    errOne_three_one, failMsg_four]
  decide

lemma compare_check_C2 : compare_ref_timeseries_df_check dfC2 refC2 = .error msgColA := by
  unfold compare_ref_timeseries_df_check
  have h1 : pyForM refC2.colNames (fun key =>
      assertTrue (dfC2.colNames.contains key)
        ("Reference key " ++ key ++ " not in test data.")) = .ok () := by decide
  have h2 : pyForM dfC2.colNames (fun key =>
      assertTrue (refC2.colNames.contains key)
        ("Test key " ++ key ++ " not in reference data.")) = .ok () := by decide
  have h3 : pyForM dfC2.colNames (trajKeyCheck dfC2 refC2) = .error msgColA := by
    have hc : dfC2.colNames = [] ++ "colA" :: ["colB"] := rfl
    rw [hc]
    exact pyForM_append_error [] ["colB"] "colA" _ _
      (fun x hx => absurd hx (List.not_mem_nil x)) trajKeyCheck_colA
  rw [h1, except_bind_ok, h2, except_bind_ok, h3]

/-! ## Claim theorems -/

/-- C1 (code_bug): the error formulas, the pass-iff-`max ≤ tol` verdict and
the message contents of `check_trajectory` are as claimed, but on failure
the source stores `result['ErrorMax'] = err_max,` and
`result['IndexMax'] = i_max,` with trailing commas (utilities.py lines
306-307), so the returned fields are the 1-tuples `(max,)` and `(argmax,)`,
not the plain float/int the claim (and the function's own docstring) state:
at `y_test = [1.2]`, `y_ref = [1.0]` the combined error is `2/5` yet
`ErrorMax` is the tuple `(2/5,)` and `IndexMax` the tuple `(0,)`. -/
theorem C1_errormax_indexmax_are_tuples :
    check_trajectory [6/5] [1] =
      { Pass := false,
        ErrorMax := PyVal.tuple1 (PyVal.float (2/5)),
        IndexMax := PyVal.tuple1 (PyVal.int 0),
        Message := some
          "Max error (2/5) in trajectory greater than tolerance (1/1000) at index 0. y_test: 6/5, y_ref:1" } ∧
    (check_trajectory [6/5] [1]).ErrorMax ≠ PyVal.float (2/5) ∧
    (check_trajectory [6/5] [1]).IndexMax ≠ PyVal.int 0 := by
  have h : check_trajectory [6/5] [1] =
      { Pass := false,
        ErrorMax := PyVal.tuple1 (PyVal.float (errOne (6/5) 1)),
        IndexMax := PyVal.tuple1 (PyVal.int 0),
        Message := some (failMsg (errOne (6/5) 1) 0 (6/5) 1) } := by
    have := check_trajectory_replicate_fail (6/5) 1 1 (by norm_num)
      (by rw [errOne_sixfifths_one]; norm_num [tol])
    simpa using this
  rw [h, errOne_sixfifths_one, failMsg_sixfifths]
  refine ⟨rfl, by decide, by decide⟩

/-- C2 (corrected, counterexample): with reference `refC2` on disk, both
columns of `dfC2` fail the trajectory check, yet the comparison raises at
the first failing column: the result is exactly `colA`'s message, which
never mentions `colB`, so not every failing column is reported. -/
theorem C2_counterexample_only_first_failure_reported :
    compare_ref_timeseries_df (FS.write (fun _ => Option.none) "ref.csv" refC2)
      dfC2 "ref.csv" = .error msgColA ∧
    trajKeyCheck dfC2 refC2 "colB" = .error msgColB ∧
    mentions msgColA "colA" = true ∧
    mentions msgColA "colB" = false := by
  refine ⟨?_, trajKeyCheck_colB, by decide, by decide⟩
  unfold compare_ref_timeseries_df
  rw [pyAssert_true (show (dfC2.indexName == "time") = true from rfl), except_bind_ok]
  have hfs : (FS.write (fun _ => Option.none) "ref.csv" refC2) "ref.csv" = some refC2 := by
    simp [FS.write]
  rw [hfs]
  show (compare_ref_timeseries_df_check dfC2 refC2 >>= fun _ =>
      pure (FS.write (fun _ => Option.none) "ref.csv" refC2)) = .error msgColA
  rw [compare_check_C2]
  rfl

/-- C2 (amended): with an existing reference, a key present in only one of
the two column sets raises a failure naming the first such missing key; and
when shared columns fail the trajectory check, the comparison raises at the
first failing column with that column's message, so later failing columns
are not reported. -/
theorem C2_amended_first_failure :
    (∀ (df df_ref : DataFrame) (pre : List String) (k : String) (rest : List String),
      df_ref.colNames = pre ++ k :: rest →
      (∀ p ∈ pre, df.colNames.contains p = true) →
      df.colNames.contains k = false →
      compare_ref_timeseries_df_check df df_ref =
        .error ("Reference key " ++ k ++ " not in test data.")) ∧
    (∀ (df df_ref : DataFrame) (pre : List String) (k : String) (rest : List String),
      (∀ x ∈ df_ref.colNames, df.colNames.contains x = true) →
      df.colNames = pre ++ k :: rest →
      (∀ p ∈ pre, df_ref.colNames.contains p = true) →
      df_ref.colNames.contains k = false →
      compare_ref_timeseries_df_check df df_ref =
        .error ("Test key " ++ k ++ " not in reference data.")) ∧
    (∀ (df df_ref : DataFrame) (pre : List String) (k : String) (rest : List String)
        (m : String),
      (∀ x ∈ df_ref.colNames, df.colNames.contains x = true) →
      (∀ x ∈ df.colNames, df_ref.colNames.contains x = true) →
      df.colNames = pre ++ k :: rest →
      (∀ p ∈ pre, trajKeyCheck df df_ref p = .ok ()) →
      trajKeyCheck df df_ref k = .error m →
      compare_ref_timeseries_df_check df df_ref = .error m) := by
  refine ⟨?_, ?_, ?_⟩
  · intro df df_ref pre k rest hcols hpre hk
    unfold compare_ref_timeseries_df_check
    rw [hcols, pyForM_append_error pre rest k _ _
      (fun p hp => by rw [hpre p hp]; rfl) (by rw [hk]; rfl), except_bind_err]
  · intro df df_ref pre k rest href hcols hpre hk
    unfold compare_ref_timeseries_df_check
    rw [pyForM_ok _ _ (fun x hx => by rw [href x hx]; rfl), except_bind_ok,
      hcols, pyForM_append_error pre rest k _ _
        (fun p hp => by rw [hpre p hp]; rfl) (by rw [hk]; rfl), except_bind_err]
  · intro df df_ref pre k rest m href htest hcols hpre hk
    unfold compare_ref_timeseries_df_check
    rw [pyForM_ok _ _ (fun x hx => by rw [href x hx]; rfl), except_bind_ok,
      pyForM_ok _ _ (fun x hx => by rw [htest x hx]; rfl), except_bind_ok,
      hcols, pyForM_append_error pre rest k _ _ hpre hk]

/-- C2 (witness): the first-failing-column part of the amended claim applied
to the concrete `dfC2`/`refC2`, whose first column `colA` fails. -/
theorem C2_amended_first_failure_witness :
    (∀ x ∈ refC2.colNames, dfC2.colNames.contains x = true) ∧
    dfC2.colNames = [] ++ "colA" :: ["colB"] ∧
    compare_ref_timeseries_df_check dfC2 refC2 = .error msgColA :=
  ⟨by decide, rfl,
   C2_amended_first_failure.2.2 dfC2 refC2 [] "colA" ["colB"] msgColA
     (by decide) (by decide) rfl
     (fun p hp => absurd hp (List.not_mem_nil p)) trajKeyCheck_colA⟩

/-- The test dataframe used as the C3 witness. -/
def dfW3 : DataFrame := ⟨"time", [0], [("a", [2])]⟩

/-- The degenerate dataframe of the C3 counterexample: time-indexed, one
column, but zero rows. -/
def dfEmpty : DataFrame := ⟨"time", [], [("a", [])]⟩

/-- C3 (corrected, counterexample): on a time-indexed dataframe with a
column but an empty time index, the first call succeeds and writes the
baseline, but the second call against the now-existing reference raises
numpy's empty-array `ValueError` (from `index.min()` inside
`create_test_points`) instead of passing. -/
theorem C3_counterexample_empty_index :
    compare_ref_timeseries_df (fun _ => Option.none) dfEmpty "ref.csv" =
      .ok (FS.write (fun _ => Option.none) "ref.csv" dfEmpty) ∧
    compare_ref_timeseries_df (FS.write (fun _ => Option.none) "ref.csv" dfEmpty)
      dfEmpty "ref.csv" = .error emptyArrayMsg := by
  constructor
  · rfl
  · unfold compare_ref_timeseries_df
    rw [pyAssert_true (show (dfEmpty.indexName == "time") = true from rfl), except_bind_ok]
    have hfs : (FS.write (fun _ => Option.none) "ref.csv" dfEmpty) "ref.csv" =
        some dfEmpty := by simp [FS.write]
    rw [hfs]
    show (compare_ref_timeseries_df_check dfEmpty dfEmpty >>= fun _ =>
        pure (FS.write (fun _ => Option.none) "ref.csv" dfEmpty)) = .error emptyArrayMsg
    have hchk : compare_ref_timeseries_df_check dfEmpty dfEmpty = .error emptyArrayMsg := by
      decide
    rw [hchk]
    rfl

/-- C3 (amended): for every time-indexed dataframe with a *nonempty* time
index and a path that does not exist, the comparison returns success and
writes the dataframe as the new reference, and a second call with the same
dataframe against the now-existing path also passes. -/
theorem C3_amended_baseline_then_pass (fs : FS) (df : DataFrame) (path : String)
    (hname : df.indexName = "time") (hmissing : fs path = Option.none)
    (hne : df.index ≠ []) :
    compare_ref_timeseries_df fs df path = .ok (fs.write path df) ∧
    (fs.write path df) path = some df ∧
    compare_ref_timeseries_df (fs.write path df) df path = .ok (fs.write path df) := by
  have hbeq : (df.indexName == "time") = true := by rw [hname]; rfl
  refine ⟨?_, by simp [FS.write], ?_⟩
  · unfold compare_ref_timeseries_df
    rw [pyAssert_true hbeq, except_bind_ok, hmissing]
    rfl
  · unfold compare_ref_timeseries_df
    rw [pyAssert_true hbeq, except_bind_ok]
    have hfs : (fs.write path df) path = some df := by simp [FS.write]
    rw [hfs]
    show (compare_ref_timeseries_df_check df df >>= fun _ =>
        pure (fs.write path df)) = .ok (fs.write path df)
    rw [compare_ref_timeseries_df_check_self df hne]
    rfl

lemma np_linspace_length (a b : ℚ) (n : ℕ) : (np_linspace a b n).length = n := by
  simp [np_linspace]

lemma np_linspace_getD (a b : ℚ) (n i : ℕ) (h : i < n) :
    (np_linspace a b n).getD i 0 = a + (i : ℚ) * (b - a) / ((n : ℚ) - 1) := by
  rw [List.getD_eq_getElem _ _ (by simpa [np_linspace] using h)]
  simp [np_linspace]

lemma np_linspace_head (a b : ℚ) (n : ℕ) (hn : n ≠ 0) :
    (np_linspace a b n).head? = some a := by
  have hl : 0 < (np_linspace a b n).length := by
    rw [np_linspace_length]; omega
  rw [List.head?_eq_getElem?, List.getElem?_eq_getElem hl]
  simp [np_linspace]

lemma np_linspace_getLast (a b : ℚ) (n : ℕ) (hn : 2 ≤ n) :
    (np_linspace a b n).getLast? = some b := by
  have hl : (np_linspace a b n).length = n := np_linspace_length a b n
  rw [List.getLast?_eq_getElem?, List.getElem?_eq_getElem (by rw [hl]; omega)]
  simp only [np_linspace, List.getElem_map, List.getElem_range, List.length_map,
    List.length_range]
  have hcast : ((n - 1 : ℕ) : ℚ) = (n : ℚ) - 1 := by
    have h1 : 1 ≤ n := by omega
    push_cast [h1]
    ring
  have hne : ((n : ℚ) - 1) ≠ 0 := by
    have h2 : (2 : ℚ) ≤ (n : ℚ) := by exact_mod_cast hn
    intro hc
    rw [sub_eq_zero] at hc
    rw [hc] at h2
    norm_num at h2
  rw [hcast]
  congr 1
  field_simp

lemma np_linspace_spacing (a b : ℚ) (n i : ℕ) (h : i + 1 < n) :
    (np_linspace a b n).getD (i+1) 0 - (np_linspace a b n).getD i 0 =
      (b - a) / ((n : ℚ) - 1) := by
  rw [np_linspace_getD _ _ _ _ h, np_linspace_getD _ _ _ _ (by omega)]
  push_cast
  ring

/-- C4 (corrected, counterexample): for the two-point input series with
times `[0, 1]` and target count `n = 1`, `create_test_points` returns a
single point at time 0 (since `np.linspace` with one point yields only the
start), so the last time of the output is 0, not the input's maximum 1. -/
theorem C4_counterexample_single_target_point :
    create_test_points ⟨[0, 1], [0, 1]⟩ 1 = .ok ⟨[0], [0]⟩ ∧
    listMax [(0:ℚ), 1] = 1 ∧
    ([(0:ℚ)]).getLast? = some 0 ∧
    (0 : ℚ) ≠ 1 :=
  ⟨create_test_points_n1_eval, by decide, rfl, by norm_num⟩

/-- C4 (amended): for every input series with at least one point and every
target count `n ≥ 2`, `create_test_points` returns exactly `n` points whose
times run from the input's minimum time to its maximum time inclusive with
even spacing `(max - min)/(n - 1)`, each value the linear interpolation of
the input rounded to 8 significant digits. -/
theorem C4_amended_resample_spec (s : Series) (n : ℕ)
    (hne : s.index ≠ []) (hn : 2 ≤ n) :
    create_test_points s n = .ok
      ⟨np_linspace (listMin s.index) (listMax s.index) n,
       (np_linspace (listMin s.index) (listMax s.index) n).map
         (fun x => round8g (np_interp1 x (s.index.zip s.data)))⟩ ∧
    (np_linspace (listMin s.index) (listMax s.index) n).length = n ∧
    ((np_linspace (listMin s.index) (listMax s.index) n).map
       (fun x => round8g (np_interp1 x (s.index.zip s.data)))).length = n ∧
    (np_linspace (listMin s.index) (listMax s.index) n).head? =
      some (listMin s.index) ∧
    (np_linspace (listMin s.index) (listMax s.index) n).getLast? =
      some (listMax s.index) ∧
    (∀ i : ℕ, i + 1 < n →
      (np_linspace (listMin s.index) (listMax s.index) n).getD (i+1) 0 -
        (np_linspace (listMin s.index) (listMax s.index) n).getD i 0 =
        (listMax s.index - listMin s.index) / ((n : ℚ) - 1)) :=
  ⟨create_test_points_ok s n hne,
   np_linspace_length _ _ n,
   by rw [List.length_map, np_linspace_length],
   np_linspace_head _ _ n (by omega),
   np_linspace_getLast _ _ n hn,
   fun i hi => np_linspace_spacing _ _ n i hi⟩

/-- C4 (witness): the amended resampling contract applied to the two-point
series with times `[0, 1]` and `n = 2`. -/
theorem C4_amended_resample_spec_witness :
    (⟨[0, 1], [0, 1]⟩ : Series).index ≠ [] ∧ (2:ℕ) ≤ 2 ∧
    create_test_points ⟨[(0:ℚ), 1], [(0:ℚ), 1]⟩ 2 = .ok
      ⟨np_linspace (listMin [(0:ℚ), 1]) (listMax [(0:ℚ), 1]) 2,
       (np_linspace (listMin [(0:ℚ), 1]) (listMax [(0:ℚ), 1]) 2).map
         (fun x => round8g (np_interp1 x (([(0:ℚ), 1]).zip ([(0:ℚ), 1]))))⟩ :=
  ⟨by decide, by decide,
   (C4_amended_resample_spec ⟨[0, 1], [0, 1]⟩ 2 (by decide) (by decide)).1⟩

/-- C3 (witness): baseline creation followed by a passing re-comparison for
a concrete one-row dataframe. -/
theorem C3_amended_baseline_then_pass_witness :
    dfW3.indexName = "time" ∧ ((fun _ => Option.none : FS) "r.csv" = Option.none) ∧
    dfW3.index ≠ [] ∧
    (compare_ref_timeseries_df (fun _ => Option.none) dfW3 "r.csv" =
        .ok (FS.write (fun _ => Option.none) "r.csv" dfW3) ∧
      (FS.write (fun _ => Option.none) "r.csv" dfW3) "r.csv" = some dfW3 ∧
      compare_ref_timeseries_df (FS.write (fun _ => Option.none) "r.csv" dfW3)
        dfW3 "r.csv" = .ok (FS.write (fun _ => Option.none) "r.csv" dfW3)) :=
  ⟨rfl, rfl, by decide,
   C3_amended_baseline_then_pass (fun _ => Option.none) dfW3 "r.csv" rfl rfl (by decide)⟩

/-- C5 (confirmed): whenever the two trajectories differ in length,
`check_trajectory` fails immediately with the length-mismatch message
(the source string carries a trailing period), and `ErrorMax`, `IndexMax`
remain `None`. -/
theorem C5_length_mismatch (y_test y_ref : List ℚ)
    (h : y_test.length ≠ y_ref.length) :
    check_trajectory y_test y_ref =
      { Pass := false, ErrorMax := PyVal.none, IndexMax := PyVal.none,
        Message := some lengthMsg } ∧
    mentions lengthMsg "Test and reference trajectory not the same length" = true := by
  constructor
  · unfold check_trajectory
    rw [if_pos h]
    rfl
  · decide

/-- C5 (witness): the length-mismatch failure at the concrete pair
`[0]` versus `[]`. -/
theorem C5_length_mismatch_witness :
    ([(0:ℚ)]).length ≠ ([] : List ℚ).length ∧
    check_trajectory [0] [] =
      { Pass := false, ErrorMax := PyVal.none, IndexMax := PyVal.none,
        Message := some lengthMsg } :=
  ⟨by decide, (C5_length_mismatch [0] [] (by decide)).1⟩

/-- C6 (confirmed): comparing any trajectory against itself passes — the
result is the untouched initial dictionary — and the maximum combined error
is 0. -/
theorem C6_self_comparison_passes (y : List ℚ) :
    check_trajectory y y = initResult ∧
    (check_trajectory y y).Pass = true ∧
    listMax (err_fun_list y y) = 0 := by
  refine ⟨check_trajectory_self y, ?_, ?_⟩
  · rw [check_trajectory_self]
    rfl
  · rw [err_fun_list_self, listMax_replicate_zero]

/-- C7 (corrected, counterexample): `run_season` ends its electricity-price
sweep at `highly_dynamic` and never restores `constant` afterwards: a
completed winter run leaves the session's scenario at `highly_dynamic`. -/
theorem C7_counterexample_run_season_no_restore :
    run_season "winter" ⟨"constant", Option.none⟩ =
      .ok ⟨"highly_dynamic", Option.none⟩ ∧
    ("highly_dynamic" : String) ≠ "constant" := by
  constructor
  · decide
  · decide

/-- C7 (amended): both runners sweep `constant`, `dynamic`,
`highly_dynamic` in that order, but only `run_time_period` restores the
electricity price to `constant` on completion; a completed `run_season`
leaves the last variant `highly_dynamic` set. -/
theorem C7_amended_only_time_period_restores :
    (∀ (tp : String) (s : Scenario),
      (run_time_period tp s).electricity_price = "constant") ∧
    (∀ (se : String) (s r : Scenario), run_season se s = .ok r →
      r.electricity_price = "highly_dynamic") := by
  constructor
  · intro tp s
    rfl
  · intro se s r h
    unfold run_season at h
    split at h
    · cases h
      rfl
    · cases h

/-- C7 (witness): the amended scenario-restoration behavior at concrete
inputs. -/
theorem C7_amended_only_time_period_restores_witness :
    (run_time_period "peak_heat_day" ⟨"constant", Option.none⟩).electricity_price =
      "constant" ∧
    (⟨"highly_dynamic", Option.none⟩ : Scenario).electricity_price =
      "highly_dynamic" :=
  ⟨C7_amended_only_time_period_restores.1 "peak_heat_day" ⟨"constant", Option.none⟩,
   C7_amended_only_time_period_restores.2 "winter" ⟨"constant", Option.none⟩
     ⟨"highly_dynamic", Option.none⟩ (by decide)⟩

/-- C8 (confirmed): with the default tolerance, `[1.0 + 0.5e-3]` against
`[1.0]` passes with the maximum combined error exactly equal to the
tolerance (absolute error `5e-4` plus relative error `5e-4`), and `[1.2]`
against `[1.0]` fails. -/
theorem C8_boundary_cases :
    check_trajectory [1 + 5/10000] [1] = initResult ∧
    listMax (err_fun_list [1 + 5/10000] [1]) = tol ∧
    (check_trajectory [12/10] [1]).Pass = false := by
  have hb : (1 + 5/10000 : ℚ) = 2001/2000 := by norm_num
  have hc : (12/10 : ℚ) = 6/5 := by norm_num
  have hlist : err_fun_list [(2001/2000 : ℚ)] [1] = [errOne (2001/2000) 1] := rfl
  have hmax : listMax (err_fun_list [(2001/2000 : ℚ)] [1]) = tol := by
    rw [hlist, errOne_boundary]
    rfl
  refine ⟨?_, by rw [hb]; exact hmax, ?_⟩
  · rw [hb, check_trajectory_eq_closed [(2001/2000 : ℚ)] [1] rfl,
      if_neg (by rw [hmax]; exact lt_irrefl tol)]
  · rw [hc]
    have h65 : check_trajectory [(6/5 : ℚ)] [1] =
        { Pass := false, ErrorMax := PyVal.tuple1 (PyVal.float (errOne (6/5) 1)),
          IndexMax := PyVal.tuple1 (PyVal.int 0),
          Message := some (failMsg (errOne (6/5) 1) 0 (6/5) 1) } := by
      simpa using check_trajectory_replicate_fail (6/5) 1 1 (by norm_num)
        (by rw [errOne_sixfifths_one]; norm_num [tol])
    rw [h65]

/-- C9 (confirmed): for equal-length trajectories whose maximum combined
error is within the tolerance, `check_trajectory` returns `Pass = True`
with `ErrorMax`, `IndexMax` and `Message` all `None`: the failure fields
are populated only on a tolerance failure. -/
theorem C9_pass_leaves_fields_absent (y_test y_ref : List ℚ)
    (h : y_test.length = y_ref.length)
    (hmax : listMax (err_fun_list y_test y_ref) ≤ tol) :
    check_trajectory y_test y_ref =
      { Pass := true, ErrorMax := PyVal.none, IndexMax := PyVal.none,
        Message := Option.none } := by
  rw [check_trajectory_eq_closed _ _ h, if_neg (not_lt.mpr hmax)]
  rfl

/-- C9 (witness): the passing comparison `[1]` versus `[1]` leaves all
three failure fields `None`. -/
theorem C9_pass_leaves_fields_absent_witness :
    ([(1:ℚ)]).length = ([(1:ℚ)]).length ∧
    listMax (err_fun_list [(1:ℚ)] [1]) ≤ tol ∧
    check_trajectory [(1:ℚ)] [1] =
      { Pass := true, ErrorMax := PyVal.none, IndexMax := PyVal.none,
        Message := Option.none } :=
  ⟨rfl,
   by rw [err_fun_list_self, listMax_replicate_zero]; norm_num [tol],
   C9_pass_leaves_fields_absent [1] [1] rfl
     (by rw [err_fun_list_self, listMax_replicate_zero]; norm_num [tol])⟩

lemma compare_ref_values_df_check_congr (df ref1 ref2 : ValuesDF)
    (h : ∀ k ∈ df.rows.map Prod.fst, pyLoc ref1.rows k = pyLoc ref2.rows k) :
    compare_ref_values_df_check df ref1 = compare_ref_values_df_check df ref2 := by
  unfold compare_ref_values_df_check
  apply pyForM_congr
  intro key hk
  rw [h key hk]

/-- C10 (confirmed): the scalar-table comparison iterates only over the
test dataframe's keys, so two references that agree at those keys — for
example one with extra reference-only rows — produce identical outcomes;
a key present only in the reference is never compared and produces no
failure, and there is no symmetric key-set check. -/
theorem C10_reference_only_keys_never_compared (df : ValuesDF)
    (fs1 fs2 : VFS) (p1 p2 : String) (ref1 ref2 : ValuesDF)
    (h1 : fs1 p1 = some ref1) (h2 : fs2 p2 = some ref2)
    (h : ∀ k ∈ df.rows.map Prod.fst, pyLoc ref1.rows k = pyLoc ref2.rows k) :
    exceptStatus (compare_ref_values_df fs1 df p1) =
      exceptStatus (compare_ref_values_df fs2 df p2) := by
  unfold compare_ref_values_df
  cases hA : pyAssert (df.indexName == "keys") with
  | error e => rfl
  | ok u =>
      cases u
      simp only [except_bind_ok]
      cases hB : pyAssert (df.colNames == ["value"]) with
      | error e => rfl
      | ok v =>
          cases v
          simp only [except_bind_ok, h1, h2]
          rw [compare_ref_values_df_check_congr df ref1 ref2 h]
          cases compare_ref_values_df_check df ref2 with
          | error e => rfl
          | ok w => cases w; rfl

/-- C10 (witness): a reference with an extra row `("b", 99)` gives the same
outcome as one without it for the one-key test table `("a", 1)`. -/
theorem C10_reference_only_keys_never_compared_witness :
    (∀ k ∈ ((⟨"keys", ["value"], [("a", 1)]⟩ : ValuesDF)).rows.map Prod.fst,
      pyLoc ([("a", (1:ℚ))]) k = pyLoc ([("a", (1:ℚ)), ("b", 99)]) k) ∧
    exceptStatus (compare_ref_values_df
        (VFS.write (fun _ => Option.none) "r.csv" ⟨"keys", ["value"], [("a", 1)]⟩)
        ⟨"keys", ["value"], [("a", 1)]⟩ "r.csv") =
      exceptStatus (compare_ref_values_df
        (VFS.write (fun _ => Option.none) "r.csv" ⟨"keys", ["value"], [("a", 1), ("b", 99)]⟩)
        ⟨"keys", ["value"], [("a", 1)]⟩ "r.csv") :=
  ⟨by decide,
   C10_reference_only_keys_never_compared ⟨"keys", ["value"], [("a", 1)]⟩
     (VFS.write (fun _ => Option.none) "r.csv" ⟨"keys", ["value"], [("a", 1)]⟩)
     (VFS.write (fun _ => Option.none) "r.csv" ⟨"keys", ["value"], [("a", 1), ("b", 99)]⟩)
     "r.csv" "r.csv" ⟨"keys", ["value"], [("a", 1)]⟩ ⟨"keys", ["value"], [("a", 1), ("b", 99)]⟩
     (by decide) (by decide) (by decide)⟩

end Boptest
